import Mathlib

/-!
Shallow embedding of the DataLens core (src/ingestion.py, src/dimensions.py,
src/scoring.py, src/roles.py) and proofs about the frozen claims.

Modelling conventions:
* Python floats are modelled as exact rationals (`ℚ`); `round(x, 2)` is
  modelled by `round2` below (round to nearest at two decimals).
* Python dicts are modelled as association lists `List (String × α)` with
  `pyGet m k d` standing for `m.get(k, d)` and `pyLookup` for key lookup.
* A pandas cell is modelled by the `Cell` inductive; `pd.to_datetime(...,
  errors := coerce)` applied to one cell is `Cell.toDatetime`, which yields
  the instant carried by a datetime cell (seconds since the epoch, as a
  signed integer) and `none` for every other cell.
* `datetime.datetime.now()` is made explicit: every function that reads the
  clock in Python takes a `now : Int` argument (seconds since the epoch).
  `timedelta.days` is `daysBetween`, the floor of the signed difference in
  days, exactly as Python computes it.
-/

namespace DataLens

attribute [local semireducible] Rat.mul Rat.inv Rat.add Rat.sub Rat.ofScientific

/-- Python `m.get(k, d)` on a dict modelled as an association list. -/
def pyGet {α : Type} (m : List (String × α)) (k : String) (d : α) : α :=
  match m with
  | [] => d
  | (k', v) :: rest => if k' = k then v else pyGet rest k d

/-- Python `m[k]` / `k in m` support: first binding of `k`, if any. -/
def pyLookup {α : Type} (m : List (String × α)) (k : String) : Option α :=
  match m with
  | [] => none
  | (k', v) :: rest => if k' = k then some v else pyLookup rest k

/-- Python `round(x, 2)`: round to the nearest multiple of 1/100.
Python rounds exact halves to even; `round` here rounds halves up — the two
agree everywhere except at exact half-way points, which no claim depends on. -/
def round2 (q : ℚ) : ℚ := ((round (q * 100) : ℤ) : ℚ) / 100

/-- Whether the character list `pat` is an initial segment of `s`. -/
def startsWithChars (pat s : List Char) : Bool :=
  match pat, s with
  | [], _ => true
  | _ :: _, [] => false
  | a :: as, b :: bs => a == b && startsWithChars as bs

/-- Whether the character list `pat` occurs contiguously inside `s`. -/
def hasSubChars (pat : List Char) : List Char → Bool
  | [] => startsWithChars pat []
  | c :: rest => startsWithChars pat (c :: rest) || hasSubChars pat rest

/-- Python `pat in s` on strings (substring containment). -/
def pyContains (s pat : String) : Bool := hasSubChars pat.toList s.toList

/-- ASCII lower-casing of one character (the only case Python `str.lower`
meets here: column names and dtype strings are ASCII). -/
def lowerChar (c : Char) : Char :=
  if 65 ≤ c.toNat ∧ c.toNat ≤ 90 then Char.ofNat (c.toNat + 32) else c

/-- Python `s.lower()` for ASCII strings. -/
def lowerStr (s : String) : String := String.mk (s.toList.map lowerChar)

/-- Python `s.endswith(pat)`. -/
def endsWithStr (s pat : String) : Bool :=
  startsWithChars pat.toList.reverse s.toList.reverse

/-- Python `timedelta.days` of `now - t`, both instants in seconds since the
epoch: the floor of the signed difference measured in whole days. -/
def daysBetween (now t : Int) : Int := ⌊((now - t : Int) : ℚ) / 86400⌋

/-! ## src/ingestion.py — data model -/

/-- One pandas cell, as far as the core reads it: missing (`NaN`/`None`),
a plain string, a number, or a datetime value (seconds since the epoch).
String or numeric cells that pandas would coerce to datetimes are modelled
as `time` cells, since the core only ever sees the coerced instants. -/
inductive Cell : Type
  | null : Cell
  | str : String → Cell
  | num : ℚ → Cell
  | time : Int → Cell
deriving DecidableEq

/-- Per-column `min`/`max`/`mean` taken from `df[col].describe()`. -/
structure NumericStats where
  min : ℚ
  max : ℚ
  mean : ℚ
deriving DecidableEq

/-- Per-column timestamp metrics: earliest and latest parsed instant and the
span in seconds. -/
structure TimestampMetrics where
  min_time : Int
  max_time : Int
  range_seconds : ℚ
deriving DecidableEq

/-- One named, typed column of a loaded dataframe. `dtype` is the pandas
dtype descriptor string (for example "float64", "object", "datetime64[ns]"). -/
structure Column where
  name : String
  dtype : String
  cells : List Cell
deriving DecidableEq

/-- A loaded, rectangular pandas dataframe: an ordered list of columns. -/
structure DataFrame where
  cols : List Column
deriving DecidableEq

/-- Python `len(df)`: the number of rows (length of the first column). -/
def dfLen (df : DataFrame) : Nat :=
  match df.cols with
  | [] => 0
  | c :: _ => c.cells.length

/-- Pandas `df.empty`: true when either axis has length zero. -/
def dfEmpty (df : DataFrame) : Bool :=
  df.cols.isEmpty || decide (dfLen df = 0)

/-- The `DatasetMetadata` dataclass of src/ingestion.py. -/
structure DatasetMetadata where
  column_names : List String
  data_types : List (String × String)
  row_count : Nat
  null_counts : List (String × Nat)
  unique_counts : List (String × Nat)
  numeric_stats : List (String × NumericStats)
  timestamp_metrics : List (String × TimestampMetrics)
  semantic_hints : List (String × String)
  signals : List (String × Bool)
  audit_hash : String
deriving DecidableEq

/-- A CSV source handed to `load_dataset`: its path and the outcome of
`pd.read_csv` on it (`none` when parsing would raise). -/
structure Source where
  name : String
  parsed : Option DataFrame

/-- `load_dataset` of src/ingestion.py: rejects non-`.csv` names, propagates
parse failures, and rejects empty dataframes, all as `ValueError`. -/
def load_dataset (src : Source) : Except String DataFrame :=
  if ¬ endsWithStr src.name ".csv" then
    Except.error "Only CSV format is supported in this version."
  else
    match src.parsed with
    | none => Except.error "Failed to load CSV: parser error"
    | some df =>
        if dfEmpty df then Except.error "Dataset is empty." else Except.ok df

/-- `_infer_semantic_hint` of src/ingestion.py: keyword heuristics on the
lower-cased column name. -/
def infer_semantic_hint (col_name : String) (_dtype : String) : String :=
  let col_lower := lowerStr col_name
  if pyContains col_lower "id" || pyContains col_lower "code" ||
      pyContains col_lower "number" then "ID"
  else if pyContains col_lower "amount" || pyContains col_lower "price" ||
      pyContains col_lower "balance" || pyContains col_lower "fee" then "MONEY"
  else if pyContains col_lower "date" || pyContains col_lower "time" ||
      pyContains col_lower "created" then "TIMESTAMP"
  else if pyContains col_lower "status" || pyContains col_lower "state" ||
      pyContains col_lower "type" then "CATEGORY"
  else "UNKNOWN"

/-- Pandas `is_numeric_dtype`, read off the dtype descriptor string. -/
def isNumericDtype (dtype : String) : Bool :=
  pyContains dtype "int" || pyContains dtype "float"

/-- Pandas `is_datetime64_any_dtype`, read off the dtype descriptor string. -/
def isDatetimeDtype (dtype : String) : Bool := pyContains dtype "datetime"

/-- Whether a cell counts as missing (`df.isnull()`). -/
def Cell.isNull : Cell → Bool
  | Cell.null => true
  | _ => false

/-- The numeric value of a cell, when it has one. -/
def Cell.toNum : Cell → Option ℚ
  | Cell.num q => some q
  | _ => none

/-- `pd.to_datetime(cell, errors := coerce)`: the instant of a datetime cell,
`NaT` (here `none`) otherwise. -/
def Cell.toDatetime : Cell → Option Int
  | Cell.time t => some t
  | _ => none

/-- Count of missing cells in a column (`df[col].isnull().sum()`). -/
def countNulls (cells : List Cell) : Nat := cells.countP Cell.isNull

/-- Count of distinct non-missing values in a column (`df[col].nunique()`). -/
def nunique (cells : List Cell) : Nat :=
  ((cells.filter (fun c => ¬ c.isNull)).dedup).length

/-- Minimum of a list of rationals, 0 when empty (the `NaN → 0.0` coercion
applied by `extract_metadata` to `describe()` output). -/
def listMin : List ℚ → ℚ
  | [] => 0
  | x :: xs => xs.foldl min x

/-- Maximum of a list of rationals, 0 when empty (`NaN → 0.0`). -/
def listMax : List ℚ → ℚ
  | [] => 0
  | x :: xs => xs.foldl max x

/-- Mean of a list of rationals, 0 when empty (`NaN → 0.0`). -/
def listMean (l : List ℚ) : ℚ :=
  match l with
  | [] => 0
  | _ => l.sum / l.length

/-- Minimum of a nonempty list of instants (first element as default). -/
def tsMin : List Int → Int
  | [] => 0
  | x :: xs => xs.foldl min x

/-- Maximum of a nonempty list of instants (first element as default). -/
def tsMax : List Int → Int
  | [] => 0
  | x :: xs => xs.foldl max x

/-- Whether `extract_metadata` attempts timestamp conversion for a column:
its name contains "date" or "time", or its dtype is already datetime. -/
def tsCandidate (c : Column) : Bool :=
  pyContains (lowerStr c.name) "date" || pyContains (lowerStr c.name) "time" ||
    isDatetimeDtype c.dtype

/-- The semantic hint `extract_metadata` records for one column: the name
heuristic, overridden to TIMESTAMP when timestamp conversion succeeded on at
least one cell. -/
def columnHint (c : Column) : String :=
  if tsCandidate c ∧ c.cells.filterMap Cell.toDatetime ≠ [] then "TIMESTAMP"
  else infer_semantic_hint c.name c.dtype

/-- Python `repr` of a list of strings, as interpolated into the audit
payload f-string. -/
def pyReprStrList (l : List String) : String :=
  "[" ++ String.intercalate ", " (l.map (fun s => "\x27" ++ s ++ "\x27")) ++ "]"

/-- Python `repr` of a dict from strings to ints, as interpolated into the
audit payload f-string. -/
def pyReprNatDict (m : List (String × Nat)) : String :=
  "\x7b" ++ String.intercalate ", "
    (m.map (fun p => "\x27" ++ p.1 ++ "\x27: " ++ toString p.2)) ++ "\x7d"

/-- Python `repr` of a dict from strings to booleans. -/
def pyReprBoolDict (m : List (String × Bool)) : String :=
  "\x7b" ++ String.intercalate ", "
    (m.map (fun p => "\x27" ++ p.1 ++ "\x27: " ++
      (if p.2 then "True" else "False"))) ++ "\x7d"

/-- SHA-256 modelled as a function of the payload string: the hash bytes
themselves play no role in any claim, only that equal payloads give equal
digests, so the digest is represented by the payload it is computed from. -/
def sha256Model (payload : String) : String := payload

/-- The signal-computation block of `extract_metadata`. -/
def computeSignals (column_names : List String)
    (data_types semantic_hints : List (String × String)) :
    List (String × Bool) :=
  let cols_lower := column_names.map lowerStr
  let has_transaction_id := semantic_hints.any (fun p => p.2 = "ID")
  let has_amount := semantic_hints.any (fun p => p.2 = "MONEY")
  let has_timestamp := semantic_hints.any (fun p => p.2 = "TIMESTAMP")
  let kyc_terms := ["user", "customer", "email", "address", "ip", "phone",
    "kyc", "name"]
  let has_kyc := cols_lower.any (fun col => kyc_terms.any (pyContains col))
  let text_cols := (data_types.filter (fun p =>
    pyContains p.2 "object" || pyContains p.2 "string")).map (fun p => p.1)
  let plain_text_cols := text_cols.filter (fun c =>
    ¬ ((pyLookup semantic_hints c).getD "UNKNOWN" ∈ ["ID", "TIMESTAMP", "MONEY"]))
  let is_text_heavy :=
    if column_names = [] then false
    else decide ((plain_text_cols.length : ℚ) / (column_names.length : ℚ) > 1/2)
  [("has_transaction_id", has_transaction_id),
   ("has_amount", has_amount),
   ("has_timestamp", has_timestamp),
   ("has_kyc", has_kyc),
   ("is_text_heavy", is_text_heavy)]

/-- `extract_metadata` of src/ingestion.py. -/
def extract_metadata (df : DataFrame) : DatasetMetadata :=
  let column_names := df.cols.map Column.name
  let data_types := df.cols.map (fun c => (c.name, c.dtype))
  let row_count := dfLen df
  let null_counts := df.cols.map (fun c => (c.name, countNulls c.cells))
  let unique_counts := df.cols.map (fun c => (c.name, nunique c.cells))
  let numeric_stats := df.cols.filterMap (fun c =>
    if isNumericDtype c.dtype then
      let vals := c.cells.filterMap Cell.toNum
      some (c.name, NumericStats.mk (listMin vals) (listMax vals) (listMean vals))
    else none)
  let timestamp_metrics := df.cols.filterMap (fun c =>
    if tsCandidate c then
      let valid_ts := c.cells.filterMap Cell.toDatetime
      if valid_ts = [] then none
      else some (c.name, TimestampMetrics.mk (tsMin valid_ts) (tsMax valid_ts)
        (((tsMax valid_ts - tsMin valid_ts : Int) : ℚ)))
    else none)
  let semantic_hints := df.cols.map (fun c => (c.name, columnHint c))
  let signals := computeSignals column_names data_types semantic_hints
  let audit_payload := pyReprStrList column_names ++ toString row_count ++
    pyReprNatDict null_counts ++ pyReprNatDict unique_counts ++
    pyReprBoolDict signals
  DatasetMetadata.mk column_names data_types row_count null_counts
    unique_counts numeric_stats timestamp_metrics semantic_hints signals
    (sha256Model audit_payload)

/-- The load-then-extract ingestion pipeline: `extract_metadata` applied to
the result of `load_dataset`. -/
def ingest_pipeline (src : Source) : Except String DatasetMetadata :=
  Except.map extract_metadata (load_dataset src)

/-! ## src/dimensions.py — the seven dimension scorers -/

/-- The final clamp `max(0.0, min(100.0, score))` used by the completeness
and uniqueness scorers. -/
def clampScore (q : ℚ) : ℚ := max 0 (min 100 q)

/-- `score_completeness`: share of non-null cells across the table. -/
def score_completeness (md : DatasetMetadata) : ℚ :=
  let total_cells : ℚ := (md.row_count : ℚ) * (md.column_names.length : ℚ)
  if total_cells = 0 then 0
  else
    let total_nulls : ℚ := (((md.null_counts.map Prod.snd).sum : Nat) : ℚ)
    let completeness_frac := (total_cells - total_nulls) / total_cells
    clampScore (completeness_frac * 100)

/-- The columns whose semantic hint equals `h`. -/
def hintedCols (md : DatasetMetadata) (h : String) : List String :=
  (md.semantic_hints.filter (fun p => p.2 = h)).map Prod.fst

/-- `score_uniqueness`: average distinct-to-rows share over ID columns,
100 when no column is hinted ID. -/
def score_uniqueness (md : DatasetMetadata) : ℚ :=
  let id_cols := hintedCols md "ID"
  if id_cols = [] then 100
  else
    let total_share := (id_cols.map (fun col =>
      if md.row_count > 0 then ((pyGet md.unique_counts col 0 : Nat) : ℚ) / (md.row_count : ℚ)
      else 0)).sum
    let avg_share := total_share / (id_cols.length : ℚ)
    clampScore (avg_share * 100)

/-- The observed minimum `score_validity` reads for one MONEY column:
`metadata.numeric_stats.get(col, dict()).get(min, 0)`. -/
def moneyMin (md : DatasetMetadata) (col : String) : ℚ :=
  ((pyLookup md.numeric_stats col).map NumericStats.min).getD 0

/-- `score_validity`: full credit per MONEY column with non-negative observed
minimum, half credit otherwise; 100 when no column is hinted MONEY. -/
def score_validity (md : DatasetMetadata) : ℚ :=
  let money_cols := hintedCols md "MONEY"
  if money_cols = [] then 100
  else
    let validity_points := (money_cols.map (fun col =>
      if 0 ≤ moneyMin md col then (1 : ℚ) else 1/2)).sum
    (validity_points / (money_cols.length : ℚ)) * 100

/-- The per-column accuracy check of `score_accuracy`: a MONEY column must
have a numeric dtype, a TIMESTAMP column must appear in the timestamp
metrics. -/
def columnIsAccurate (md : DatasetMetadata) (col : String) : Bool :=
  let hint := pyGet md.semantic_hints col "UNKNOWN"
  let dtype := lowerStr (pyGet md.data_types col "")
  let moneyBad := hint = "MONEY" ∧
    ¬ pyContains dtype "int" ∧ ¬ pyContains dtype "float"
  let tsBad := hint = "TIMESTAMP" ∧ pyLookup md.timestamp_metrics col = none
  ¬ moneyBad ∧ ¬ tsBad

/-- `score_accuracy`: share of columns passing the accuracy check, 0 when the
table has no columns. -/
def score_accuracy (md : DatasetMetadata) : ℚ :=
  let total_cols := md.column_names.length
  if total_cols = 0 then 0
  else
    let accurate_cols := md.column_names.countP (columnIsAccurate md)
    ((accurate_cols : ℚ) / (total_cols : ℚ)) * 100

/-- `score_consistency`: full credit per CATEGORY column whose distinct count
is strictly between 0 and the row count, half credit otherwise; 100 when no
column is hinted CATEGORY. -/
def score_consistency (md : DatasetMetadata) : ℚ :=
  let cat_cols := hintedCols md "CATEGORY"
  if cat_cols = [] then 100
  else
    let consistent_cols := (cat_cols.map (fun col =>
      let uniq := pyGet md.unique_counts col 0
      if 0 < uniq ∧ uniq < md.row_count then (1 : ℚ) else 1/2)).sum
    (consistent_cols / (cat_cols.length : ℚ)) * 100

/-- The banded recency score of `score_timeliness` for one timestamp column,
as a function of the whole-day difference `delta_days`. -/
def recencyScore (delta_days : Int) : ℚ :=
  if delta_days < 0 then 0
  else if delta_days ≤ 1 then 100
  else if delta_days ≤ 30 then 90
  else if delta_days ≤ 365 then 70
  else 40

/-- `score_timeliness`: average banded recency of the max observed instant of
each timestamp-metric column against `now`; with no such column, 50 when a
TIMESTAMP hint exists anywhere, else 100. -/
def score_timeliness (md : DatasetMetadata) (now : Int) : ℚ :=
  if md.timestamp_metrics = [] then
    if md.semantic_hints.any (fun p => p.2 = "TIMESTAMP") then 50 else 100
  else
    let scores := md.timestamp_metrics.map (fun p =>
      recencyScore (daysBetween now p.2.max_time))
    scores.sum / (scores.length : ℚ)

/-- `score_integrity`: 100 per ID column without nulls, otherwise a doubled
null-share penalty floored at 0; 100 when no column is hinted ID. -/
def score_integrity (md : DatasetMetadata) : ℚ :=
  let id_cols := hintedCols md "ID"
  if id_cols = [] then 100
  else
    let integrity_scores := id_cols.map (fun col =>
      let nulls := pyGet md.null_counts col 0
      if nulls = 0 then (100 : ℚ)
      else max 0 (100 - ((nulls : ℚ) / (md.row_count : ℚ) * 200)))
    integrity_scores.sum / (integrity_scores.length : ℚ)

/-- `calculate_all_dimensions`: the seven scores keyed by dimension name, in
the insertion order of the Python dict literal. -/
def calculate_all_dimensions (md : DatasetMetadata) (now : Int) :
    List (String × ℚ) :=
  [("accuracy", score_accuracy md),
   ("completeness", score_completeness md),
   ("consistency", score_consistency md),
   ("timeliness", score_timeliness md now),
   ("uniqueness", score_uniqueness md),
   ("validity", score_validity md),
   ("integrity", score_integrity md)]

/-! ## src/scoring.py — the base score aggregator -/

/-- The seven required dimension names of `calculate_base_dqs`. -/
def required_dimensions : List String :=
  ["accuracy", "completeness", "consistency", "timeliness", "uniqueness",
   "validity", "integrity"]

/-- Decimal rendering of a rational standing in for Python string conversion
inside the weight-error message; integers print without a fractional part. -/
def pyStr (q : ℚ) : String :=
  if q.den = 1 then toString q.num else toString q.num ++ "/" ++ toString q.den

/-- The weighted sum `sum(scores[dim] * weights.get(dim, 0.0) for dim in
required_dimensions)` over score and weight dicts. -/
def weightedSum (scores weights : List (String × ℚ)) : ℚ :=
  (required_dimensions.map (fun d => pyGet scores d 0 * pyGet weights d 0)).sum

/-- `calculate_base_dqs` of src/scoring.py: missing dimensions score 0,
omitted weights default to 1/7 each, an explicit weight dict must sum to 1
within 0.001 or the call raises `ValueError`. -/
def calculate_base_dqs (dimension_scores : List (String × ℚ))
    (weights? : Option (List (String × ℚ))) : Except String ℚ :=
  let scores := required_dimensions.map (fun d => (d, pyGet dimension_scores d 0))
  match weights? with
  | none =>
      let weights := required_dimensions.map (fun d => (d, (1 : ℚ)/7))
      Except.ok (round2 (weightedSum scores weights))
  | some weights =>
      let total_weight := (weights.map Prod.snd).sum
      if |total_weight - 1| > 1/1000 then
        Except.error ("Weights must sum to 1.0. Current sum: " ++ pyStr total_weight)
      else
        Except.ok (round2 (weightedSum scores weights))

instance {ε α : Type} [DecidableEq ε] [DecidableEq α] :
    DecidableEq (Except ε α) := fun x y =>
  match x, y with
  | Except.ok a, Except.ok b =>
      if h : a = b then isTrue (by rw [h])
      else isFalse (fun he => by cases he; exact h rfl)
  | Except.error a, Except.error b =>
      if h : a = b then isTrue (by rw [h])
      else isFalse (fun he => by cases he; exact h rfl)
  | Except.ok _, Except.error _ => isFalse (fun he => by cases he)
  | Except.error _, Except.ok _ => isFalse (fun he => by cases he)

/-- One full scoring run as the dashboard performs it: extract metadata,
score all dimensions at the evaluation instant `now`, and aggregate with the
default weights. -/
structure PipelineRun where
  metadata : DatasetMetadata
  dim_scores : List (String × ℚ)
  base : Except String ℚ
deriving DecidableEq

/-- The extract-score-aggregate pipeline at evaluation instant `now`. -/
def run_pipeline (df : DataFrame) (now : Int) : PipelineRun :=
  let md := extract_metadata df
  let ds := calculate_all_dimensions md now
  PipelineRun.mk md ds (calculate_base_dqs ds none)

/-! ## src/roles.py — the role profile engine -/

/-- A role profile of src/roles.py. The Python catalog stores each profile
as a dict without its own name and `get_role_profile` adds the `role_name`
key to the returned copy; here the name is carried as a field. -/
structure RoleProfile where
  role_name : String
  description : String
  risk_level : String
  weights : List (String × ℚ)
  critical_dimensions : List String
  risk_threshold : ℚ
  required_signals : List String
deriving DecidableEq

/-- `_make_weights`: keep the declared focus weights and spread the
remaining mass evenly over the undeclared dimensions. -/
def make_weights (focus_map : List (String × ℚ)) : List (String × ℚ) :=
  let dims := ["accuracy", "completeness", "consistency", "timeliness",
    "uniqueness", "validity", "integrity"]
  let current_sum := (focus_map.map Prod.snd).sum
  let remaining := 1 - current_sum
  let start_count : Nat := dims.length - focus_map.length
  dims.map (fun d => (d, pyGet focus_map d
    (if start_count > 0 then remaining / (start_count : ℚ) else 0)))

/-- The module-level `PROFILES` catalog, keyed by role name. -/
def PROFILES : List (String × RoleProfile) :=
  [("Data Engineer", RoleProfile.mk "Data Engineer"
      "Focuses on pipeline reliability, schema adherence, and completeness."
      "Technical"
      (make_weights [("completeness", 1/4), ("integrity", 1/4), ("accuracy", 1/5)])
      ["completeness", "integrity", "accuracy"] 80 []),
   ("Data Scientist", RoleProfile.mk "Data Scientist"
      "Needs clean distributions, consistent history, and valid values for modeling."
      "Model Performance"
      (make_weights [("consistency", 1/4), ("validity", 1/5), ("completeness", 1/5)])
      ["consistency", "validity", "completeness"] 75 []),
   ("Fraud Analyst", RoleProfile.mk "Fraud Analyst"
      "Detects anomalies; relies on unique identities and real-time signals."
      "High Operational"
      (make_weights [("uniqueness", 3/10), ("timeliness", 3/10), ("validity", 1/10)])
      ["uniqueness", "timeliness"] 75 ["has_transaction_id"]),
   ("Compliance Officer", RoleProfile.mk "Compliance Officer"
      "Strict adherence to rules (KYC), accuracy of records, and data integrity."
      "Regulatory"
      (make_weights [("accuracy", 1/4), ("integrity", 1/4), ("completeness", 1/5)])
      ["accuracy", "integrity", "validity"] 85 ["has_kyc"]),
   ("Finance / Settlement", RoleProfile.mk "Finance / Settlement"
      "Zero tolerance for accuracy errors in amounts and validity of status."
      "Financial"
      (make_weights [("accuracy", 3/10), ("validity", 3/10), ("timeliness", 3/20)])
      ["accuracy", "validity"] 90 ["has_amount"]),
   ("Executive / Leadership", RoleProfile.mk "Executive / Leadership"
      "High level overview, balanced concern for overall trust."
      "Strategic" (make_weights []) [] 60 [])]

/-- `get_role_profile`: case-insensitive name match over the catalog with the
"Executive / Leadership" profile as soft fallback. -/
def get_role_profile (role_name : String) : RoleProfile :=
  match PROFILES.find? (fun p => lowerStr p.1 = lowerStr role_name) with
  | some p => p.2
  | none => RoleProfile.mk "Executive / Leadership"
      "High level overview, balanced concern for overall trust."
      "Strategic" (make_weights []) [] 60 []

/-- `is_role_applicable`: every required signal must be present and true in
the dataset signals. -/
def is_role_applicable (role_profile : RoleProfile)
    (metadata_signals : List (String × Bool)) : Bool :=
  role_profile.required_signals.all (fun signal => pyGet metadata_signals signal false)

/-- The `metadata` argument of `calculate_role_score` and
`explain_role_impact`, as the Python truthiness-and-hasattr guard
`if metadata and hasattr(metadata, signals)` distinguishes it: omitted or
`None` (falsy), a truthy object without a `signals` attribute, or an object
carrying a signals dict. -/
inductive MetadataArg : Type
  | absent : MetadataArg
  | noSignalsAttr : MetadataArg
  | withSignals : List (String × Bool) → MetadataArg
deriving DecidableEq

/-- The role component `sum(weights.get(dim, 0.0) * score for dim, score in
dimension_scores.items())`. -/
def role_component (dimension_scores weights : List (String × ℚ)) : ℚ :=
  (dimension_scores.map (fun e => pyGet weights e.1 0 * e.2)).sum

/-- The risk check of `calculate_role_score`: some critical dimension scores
strictly below the threshold (missing dimensions read as 0). -/
def risk_check (dimension_scores : List (String × ℚ)) (p : RoleProfile) : Bool :=
  p.critical_dimensions.any (fun dim =>
    decide (pyGet dimension_scores dim 0 < p.risk_threshold))

/-- Steps 2 to 4 of `calculate_role_score` (after the applicability guard):
clamp alpha at 0.6, blend base score and role component, detect risk. -/
def role_score_body (base_dqs : ℚ) (dimension_scores : List (String × ℚ))
    (p : RoleProfile) (alpha : ℚ) : Option ℚ × Bool :=
  let alpha' := if alpha < 3/5 then 3/5 else alpha
  let rus := alpha' * base_dqs + (1 - alpha') * role_component dimension_scores p.weights
  (some (round2 rus), risk_check dimension_scores p)

/-- `calculate_role_score` of src/roles.py. -/
def calculate_role_score (base_dqs : ℚ) (dimension_scores : List (String × ℚ))
    (p : RoleProfile) (metadata : MetadataArg) (alpha : ℚ) : Option ℚ × Bool :=
  match metadata with
  | MetadataArg.withSignals sg =>
      if ¬ is_role_applicable p sg then (none, false)
      else role_score_body base_dqs dimension_scores p alpha
  | _ => role_score_body base_dqs dimension_scores p alpha

/-- Python `str.title()` for the single-word dimension names appearing in
explanations. -/
def pyTitle (s : String) : String := s.capitalize

/-- One-decimal rendering of a score, standing in for Python `.1f`. -/
def fmt1 (q : ℚ) : String :=
  let n : Int := round (q * 10)
  let sign := if n < 0 then "-" else ""
  sign ++ toString (n.natAbs / 10) ++ "." ++ toString (n.natAbs % 10)

/-- The fixed "role not applicable" message of `explain_role_impact`. -/
def not_applicable_message (p : RoleProfile) : String :=
  "⚠️ **Role Not Applicable**\n\n" ++
  "This dataset lacks the semantic signals required for a **" ++ p.role_name ++
  "** analysis.\nMissing critical signals: `" ++
  String.intercalate "`, `" p.required_signals ++
  "`\nPlease switch to a role that matches the dataset content (e.g., Data Engineer)."

/-- The explanation `explain_role_impact` builds once the applicability guard
has passed (or been skipped). -/
def explain_body (p : RoleProfile) (dimension_scores : List (String × ℚ)) : String :=
  let check_dims := p.critical_dimensions
  let threshold := p.risk_threshold
  let header := ["**Perspective: " ++ p.role_name ++ "**", p.description, ""]
  let failures := check_dims.filterMap (fun dim =>
    let score := pyGet dimension_scores dim 0
    if score < threshold then some (dim, score) else none)
  let rest :=
    if failures = [] ∧ check_dims ≠ [] then
      ["✅ **No critical risks detected.**",
       "All critical dimensions (" ++ String.intercalate ", " check_dims ++
         ") are above the risk threshold of " ++ pyStr threshold ++ ".",
       "The dataset is suitable for this specific role/use-case."]
    else if check_dims = [] then
      if pyGet dimension_scores "accuracy" 100 < 60 then
        ["⚠️ General Notice: Data Accuracy is significantly low."]
      else
        ["ℹ️ Balanced Overview: Base DQS reflects the general state."]
    else
      ["⚠️ **Critical Data Quality Risks Detected:**",
       "The following dimensions fell below the " ++ p.role_name ++
         " risk threshold (" ++ pyStr threshold ++ "):"] ++
      failures.map (fun f => "- **" ++ pyTitle f.1 ++ "**: " ++ fmt1 f.2 ++
        " (Threshold: " ++ pyStr threshold ++ ")") ++
      ["\n**Impact:**",
       "These deficiencies directly impact " ++ p.risk_level ++
         " objectives. Proceed with caution."]
  String.intercalate "\n" (header ++ rest)

/-- `explain_role_impact` of src/roles.py. -/
def explain_role_impact (p : RoleProfile) (dimension_scores : List (String × ℚ))
    (metadata : MetadataArg) : String :=
  match metadata with
  | MetadataArg.withSignals sg =>
      if ¬ is_role_applicable p sg then not_applicable_message p
      else explain_body p dimension_scores
  | _ => explain_body p dimension_scores

/-! ## Predicates, specification-side definitions and concrete inputs used by
the claim theorems -/

/-- The data-model invariants of §3 of the spec assumed by claim C1:
null and distinct counts never exceed the row count (row counts are
non-negative by the `Nat` typing). -/
def ValidMeta (md : DatasetMetadata) : Prop :=
  (∀ p ∈ md.null_counts, p.2 ≤ md.row_count) ∧
    (∀ p ∈ md.unique_counts, p.2 ≤ md.row_count)

/-- A dimension-score mapping whose values all lie in [0, 100]. -/
def ScoresInRange (ds : List (String × ℚ)) : Prop :=
  ∀ p ∈ ds, 0 ≤ p.2 ∧ p.2 ≤ 100

/-- The profile `p` with its critical-dimension list replaced, used to state
that the risk flag ignores the order of the critical dimensions. -/
def withCritical (p : RoleProfile) (l : List String) : RoleProfile :=
  RoleProfile.mk p.role_name p.description p.risk_level p.weights l
    p.risk_threshold p.required_signals

/-- Whether an `Except` result is a success. -/
def exceptIsOk {ε α : Type} : Except ε α → Bool
  | Except.ok _ => true
  | Except.error _ => false

/-- The claim-C9 banding, phrased as the specification phrases it: a future
max instant scores 0, at most one day old scores 100, at most 30 days 90, at
most 365 days 70, older 40 — ages measured in whole days, the granularity at
which Python `timedelta.days` exposes the difference. -/
def recencyScoreSpec (now t : Int) : ℚ :=
  if now < t then 0
  else if daysBetween now t ≤ 1 then 100
  else if daysBetween now t ≤ 30 then 90
  else if daysBetween now t ≤ 365 then 70
  else 40

/-- The timeliness rule as claim C9 states it: the average of the banded
recency of the max observed instant of each timestamp-metric column; with no such
column, 50 when a TIMESTAMP hint exists and 100 otherwise. -/
def score_timeliness_spec (md : DatasetMetadata) (now : Int) : ℚ :=
  if md.timestamp_metrics = [] then
    if md.semantic_hints.any (fun p => p.2 = "TIMESTAMP") then 50 else 100
  else
    (md.timestamp_metrics.map (fun p => recencyScoreSpec now p.2.max_time)).sum /
      ((md.timestamp_metrics.length : ℚ))

/-- Dimension scores (all inside [0, 100]) used to refute the base-score
range part of claim C1. -/
def cexScores : List (String × ℚ) :=
  [("accuracy", 100), ("completeness", 0), ("consistency", 0),
   ("timeliness", 0), ("uniqueness", 0), ("validity", 0), ("integrity", 0)]

/-- A weight mapping that `calculate_base_dqs` accepts (its values sum to
exactly 1.0) yet drives the base score outside [0, 100]. -/
def cexWeights : List (String × ℚ) := [("accuracy", 2), ("completeness", -1)]

/-- The mock metadata record of the `__main__` stub of src/dimensions.py
(its 10-days-old max timestamp written relative to evaluation instant 0). -/
def mockMeta : DatasetMetadata :=
  DatasetMetadata.mk ["id", "amount", "date"]
    [("id", "object"), ("amount", "float64"), ("date", "object")]
    100 [("id", 0), ("amount", 5), ("date", 0)]
    [("id", 98), ("amount", 50), ("date", 10)]
    [("amount", NumericStats.mk (-10) 500 100)]
    [("date", TimestampMetrics.mk (-864000) (-864000) 0)]
    [("id", "ID"), ("amount", "MONEY"), ("date", "TIMESTAMP")]
    [] ""

/-- A one-column dataframe holding a single timestamp taken at instant 0,
used to show that the dimension scores depend on the evaluation instant. -/
def exDF : DataFrame :=
  DataFrame.mk [Column.mk "event_time" "datetime64[ns]" [Cell.time 0]]

/-- A dataframe with one column and zero rows: an empty table as pandas
reports it (`df.empty` true, `len(df)` 0). -/
def emptyDF : DataFrame := DataFrame.mk [Column.mk "col_a" "object" []]

/-- A CSV-named source whose parsed content is the empty table. -/
def emptySource : Source := Source.mk "payments.csv" (some emptyDF)

/-- A one-column dataframe whose single column is hinted MONEY but carries a
non-numeric dtype, used for claim C10. -/
def moneyTextDF : DataFrame :=
  DataFrame.mk [Column.mk "amount" "object" [Cell.str "10 EUR"]]

/-- The "Fraud Analyst" profile as `get_role_profile` returns it. -/
def fraudProfile : RoleProfile := get_role_profile "Fraud Analyst"

/-- Signals of a dataset without a transaction-id column. -/
def noTxSignals : List (String × Bool) :=
  [("has_transaction_id", false), ("has_amount", true), ("has_timestamp", true),
   ("has_kyc", false), ("is_text_heavy", false)]

/-- Signals of a dataset carrying a transaction-id column. -/
def txSignals : List (String × Bool) :=
  [("has_transaction_id", true), ("has_amount", true), ("has_timestamp", true),
   ("has_kyc", false), ("is_text_heavy", false)]

/-- The sample dimension scores of the `__main__` stub of src/scoring.py. -/
def sampleScores : List (String × ℚ) :=
  [("accuracy", 191/2), ("completeness", 80), ("consistency", 100),
   ("timeliness", 90), ("uniqueness", 85), ("validity", 100), ("integrity", 100)]

/-- The custom payment-profile weights of the `__main__` stub of
src/scoring.py. -/
def customWeights : List (String × ℚ) :=
  [("accuracy", 1/10), ("completeness", 1/10), ("consistency", 1/10),
   ("timeliness", 1/10), ("uniqueness", 1/5), ("validity", 1/5), ("integrity", 1/5)]

/-! ## Helper lemmas -/

theorem pyGet_range (m : List (String × ℚ)) (k : String)
    (h : ∀ p ∈ m, 0 ≤ p.2 ∧ p.2 ≤ 100) :
    0 ≤ pyGet m k 0 ∧ pyGet m k 0 ≤ 100 := by
  induction m with
  | nil => exact ⟨le_refl 0, by simp [pyGet]⟩
  | cons hd tl ih =>
      simp only [pyGet]
      by_cases hk : hd.1 = k
      · simpa [hk] using h hd (List.mem_cons_self hd tl)
      · simp only [hk, if_false]
        exact ih (fun p hp => h p (List.mem_cons_of_mem hd hp))

theorem pyGet_nonneg (m : List (String × ℚ)) (k : String)
    (h : ∀ p ∈ m, 0 ≤ p.2) : 0 ≤ pyGet m k 0 := by
  induction m with
  | nil => exact le_refl 0
  | cons hd tl ih =>
      simp only [pyGet]
      by_cases hk : hd.1 = k
      · simpa [hk] using h hd (List.mem_cons_self hd tl)
      · simp only [hk, if_false]
        exact ih (fun p hp => h p (List.mem_cons_of_mem hd hp))

theorem pyLookup_eq_none_iff {α : Type} (m : List (String × α)) (k : String) :
    pyLookup m k = none ↔ ∀ p ∈ m, p.1 ≠ k := by
  induction m with
  | nil => simp [pyLookup]
  | cons hd tl ih =>
      by_cases hk : hd.1 = k
      · simp [pyLookup, hk]
      · simp [pyLookup, hk, ih]

theorem listSum_bounds (l : List ℚ) (a b : ℚ) (h : ∀ x ∈ l, a ≤ x ∧ x ≤ b) :
    (l.length : ℚ) * a ≤ l.sum ∧ l.sum ≤ (l.length : ℚ) * b := by
  induction l with
  | nil => simp
  | cons hd tl ih =>
      have hhd := h hd (List.mem_cons_self hd tl)
      have htl := ih (fun x hx => h x (List.mem_cons_of_mem hd hx))
      simp only [List.sum_cons, List.length_cons]
      push_cast
      constructor <;> nlinarith [hhd.1, hhd.2, htl.1, htl.2]

theorem avg_bounds (l : List ℚ) (a b : ℚ) (hne : l ≠ [])
    (h : ∀ x ∈ l, a ≤ x ∧ x ≤ b) :
    a ≤ l.sum / (l.length : ℚ) ∧ l.sum / (l.length : ℚ) ≤ b := by
  have hlen : 0 < (l.length : ℚ) := by
    have : 0 < l.length := List.length_pos.mpr hne
    exact_mod_cast this
  have hb := listSum_bounds l a b h
  constructor
  · rw [le_div_iff hlen]
    nlinarith [hb.1]
  · rw [div_le_iff hlen]
    nlinarith [hb.2]

theorem clampScore_range (q : ℚ) : 0 ≤ clampScore q ∧ clampScore q ≤ 100 := by
  unfold clampScore
  exact ⟨le_max_left 0 _, max_le (by norm_num) (min_le_left 100 q)⟩

theorem round2_range (q : ℚ) (h0 : 0 ≤ q) (h1 : q ≤ 100) :
    0 ≤ round2 q ∧ round2 q ≤ 100 := by
  unfold round2
  rw [round_eq]
  constructor
  · have hfl : (0 : ℤ) ≤ ⌊q * 100 + 1 / 2⌋ := Int.floor_nonneg.mpr (by linarith)
    have : (0 : ℚ) ≤ (⌊q * 100 + 1 / 2⌋ : ℚ) := by exact_mod_cast hfl
    linarith [div_nonneg this (by norm_num : (0:ℚ) ≤ 100)]
  · have hlt : ⌊q * 100 + 1 / 2⌋ < 10001 := by
      apply Int.floor_lt.mpr
      push_cast
      linarith
    have hle : ⌊q * 100 + 1 / 2⌋ ≤ 10000 := by omega
    have hc : (⌊q * 100 + 1 / 2⌋ : ℚ) ≤ 10000 := by exact_mod_cast hle
    rw [div_le_iff (by norm_num : (0:ℚ) < 100)]
    linarith

theorem recencyScore_range (d : Int) :
    0 ≤ recencyScore d ∧ recencyScore d ≤ 100 := by
  unfold recencyScore
  split <;> [skip; split <;> [skip; split <;> [skip; split]]] <;> norm_num

theorem share_mul_100_range (s : ℚ) (h0 : 0 ≤ s) (h1 : s ≤ 1) :
    0 ≤ s * 100 ∧ s * 100 ≤ 100 := ⟨by nlinarith, by nlinarith⟩

theorem score_completeness_range (md : DatasetMetadata) :
    0 ≤ score_completeness md ∧ score_completeness md ≤ 100 := by
  simp only [score_completeness]
  split
  · norm_num
  · exact clampScore_range _

theorem score_uniqueness_range (md : DatasetMetadata) :
    0 ≤ score_uniqueness md ∧ score_uniqueness md ≤ 100 := by
  simp only [score_uniqueness]
  split
  · norm_num
  · exact clampScore_range _

theorem halfOrFull_avg_range (cols : List String) (f : String → ℚ)
    (hne : cols ≠ []) (hf : ∀ c ∈ cols, f c = 1 ∨ f c = 1/2) :
    0 ≤ ((cols.map f).sum / (cols.length : ℚ)) * 100 ∧
      ((cols.map f).sum / (cols.length : ℚ)) * 100 ≤ 100 := by
  have hmem : ∀ x ∈ cols.map f, 1/2 ≤ x ∧ x ≤ 1 := by
    intro x hx
    obtain ⟨c, hc, rfl⟩ := List.mem_map.mp hx
    rcases hf c hc with h | h <;> rw [h] <;> norm_num
  have hne' : cols.map f ≠ [] := by
    simpa [List.map_eq_nil] using hne
  have havg := avg_bounds (cols.map f) (1/2) 1 hne' hmem
  rw [List.length_map] at havg
  constructor <;> nlinarith [havg.1, havg.2]

theorem score_validity_range (md : DatasetMetadata) :
    0 ≤ score_validity md ∧ score_validity md ≤ 100 := by
  simp only [score_validity]
  split
  · norm_num
  · next hne =>
      apply halfOrFull_avg_range _ _ hne
      intro c _
      split
      · exact Or.inl rfl
      · exact Or.inr rfl

theorem score_consistency_range (md : DatasetMetadata) :
    0 ≤ score_consistency md ∧ score_consistency md ≤ 100 := by
  simp only [score_consistency]
  split
  · norm_num
  · next hne =>
      apply halfOrFull_avg_range _ _ hne
      intro c _
      split
      · exact Or.inl rfl
      · exact Or.inr rfl

theorem score_accuracy_range (md : DatasetMetadata) :
    0 ≤ score_accuracy md ∧ score_accuracy md ≤ 100 := by
  simp only [score_accuracy]
  split
  · norm_num
  · next hne =>
      have hpos : 0 < (md.column_names.length : ℚ) := by
        have : 0 < md.column_names.length := Nat.pos_of_ne_zero hne
        exact_mod_cast this
      have hle : (md.column_names.countP (columnIsAccurate md) : ℚ) ≤
          (md.column_names.length : ℚ) := by
        exact_mod_cast List.countP_le_length _
      have hshare : 0 ≤ (md.column_names.countP (columnIsAccurate md) : ℚ) /
            (md.column_names.length : ℚ) ∧
          (md.column_names.countP (columnIsAccurate md) : ℚ) /
            (md.column_names.length : ℚ) ≤ 1 := by
        constructor
        · positivity
        · rw [div_le_one hpos]
          exact hle
      exact share_mul_100_range _ hshare.1 hshare.2

theorem score_timeliness_range (md : DatasetMetadata) (now : Int) :
    0 ≤ score_timeliness md now ∧ score_timeliness md now ≤ 100 := by
  simp only [score_timeliness]
  split
  · split <;> norm_num
  · next hne =>
      have hmem : ∀ x ∈ md.timestamp_metrics.map (fun p =>
          recencyScore (daysBetween now p.2.max_time)), 0 ≤ x ∧ x ≤ 100 := by
        intro x hx
        obtain ⟨p, _, rfl⟩ := List.mem_map.mp hx
        exact recencyScore_range _
      have hne' : md.timestamp_metrics.map (fun p =>
          recencyScore (daysBetween now p.2.max_time)) ≠ [] := by
        simpa [List.map_eq_nil] using hne
      exact avg_bounds _ 0 100 hne' hmem

theorem score_integrity_range (md : DatasetMetadata) :
    0 ≤ score_integrity md ∧ score_integrity md ≤ 100 := by
  simp only [score_integrity]
  split
  · norm_num
  · next hne =>
      have hmem : ∀ x ∈ (hintedCols md "ID").map (fun col =>
          let nulls := pyGet md.null_counts col 0
          if nulls = 0 then (100 : ℚ)
          else max 0 (100 - ((nulls : ℚ) / (md.row_count : ℚ) * 200))),
          0 ≤ x ∧ x ≤ 100 := by
        intro x hx
        obtain ⟨c, _, rfl⟩ := List.mem_map.mp hx
        simp only
        split
        · norm_num
        · constructor
          · exact le_max_left 0 _
          · apply max_le (by norm_num)
            have : 0 ≤ (((pyGet md.null_counts c 0 : ℕ) : ℚ) / (md.row_count : ℚ) * 200) := by
              positivity
            linarith
      have hne' : (hintedCols md "ID").map (fun col =>
          let nulls := pyGet md.null_counts col 0
          if nulls = 0 then (100 : ℚ)
          else max 0 (100 - ((nulls : ℚ) / (md.row_count : ℚ) * 200))) ≠ [] := by
        simpa [List.map_eq_nil] using hne
      exact avg_bounds _ 0 100 hne' hmem

theorem listSum_map_zero {σ : Type} (l : List σ) :
    (l.map fun _ => (0 : ℚ)).sum = 0 := by
  induction l with
  | nil => simp
  | cons hd tl ih => simp [ih]

theorem listSum_map_le {σ : Type} (l : List σ) (f g : σ → ℚ)
    (h : ∀ x ∈ l, f x ≤ g x) : (l.map f).sum ≤ (l.map g).sum := by
  induction l with
  | nil => simp
  | cons hd tl ih =>
      simp only [List.map_cons, List.sum_cons]
      have h1 := h hd (List.mem_cons_self hd tl)
      have h2 := ih (fun x hx => h x (List.mem_cons_of_mem hd hx))
      linarith

theorem listSum_map_add {σ : Type} (l : List σ) (f g : σ → ℚ) :
    (l.map fun x => f x + g x).sum = (l.map f).sum + (l.map g).sum := by
  induction l with
  | nil => simp
  | cons hd tl ih =>
      simp only [List.map_cons, List.sum_cons, ih]
      ring

theorem sum_ite_eq_zero (ks : List String) (k₀ : String) (v : ℚ)
    (h : k₀ ∉ ks) : (ks.map fun k => if k₀ = k then v else 0).sum = 0 := by
  induction ks with
  | nil => simp
  | cons hd tl ih =>
      have hne : k₀ ≠ hd := fun he => h (he ▸ List.mem_cons_self hd tl)
      have htl : k₀ ∉ tl := fun ht => h (List.mem_cons_of_mem hd ht)
      simp [hne, ih htl]

theorem sum_ite_le (ks : List String) (k₀ : String) (v : ℚ)
    (hnd : ks.Nodup) (hv : 0 ≤ v) :
    (ks.map fun k => if k₀ = k then v else 0).sum ≤ v := by
  induction ks with
  | nil => simpa using hv
  | cons hd tl ih =>
      have hhd : hd ∉ tl := (List.nodup_cons.mp hnd).1
      have htl : tl.Nodup := (List.nodup_cons.mp hnd).2
      simp only [List.map_cons, List.sum_cons]
      by_cases hk : k₀ = hd
      · subst hk
        simp [sum_ite_eq_zero tl k₀ v hhd]
      · simp only [hk, if_false, zero_add]
        exact ih htl

theorem pyGet_sum_le (ks : List String) (hnd : ks.Nodup)
    (w : List (String × ℚ)) (hw : ∀ p ∈ w, 0 ≤ p.2) :
    (ks.map fun k => pyGet w k 0).sum ≤ (w.map Prod.snd).sum := by
  induction w with
  | nil =>
      simp only [pyGet, List.map_nil, List.sum_nil]
      rw [listSum_map_zero]
  | cons p w' ih =>
      have hp : 0 ≤ p.2 := hw p (List.mem_cons_self p w')
      have hw' : ∀ q ∈ w', 0 ≤ q.2 := fun q hq => hw q (List.mem_cons_of_mem p hq)
      have step1 : (ks.map fun k => pyGet (p :: w') k 0).sum ≤
          (ks.map fun k => pyGet w' k 0 + (if p.1 = k then p.2 else 0)).sum := by
        apply listSum_map_le
        intro k _
        by_cases hpk : p.1 = k
        · have := pyGet_nonneg w' k hw'
          simp only [pyGet, hpk, if_pos rfl, if_true]
          simp only [hpk] at this ⊢
          linarith
        · simp [pyGet, hpk]
      have step2 : (ks.map fun k => pyGet w' k 0 + (if p.1 = k then p.2 else 0)).sum =
          (ks.map fun k => pyGet w' k 0).sum +
            (ks.map fun k => if p.1 = k then p.2 else 0).sum :=
        listSum_map_add ks _ _
      have step3 : (ks.map fun k => if p.1 = k then p.2 else 0).sum ≤ p.2 :=
        sum_ite_le ks p.1 p.2 hnd hp
      have step4 := ih hw'
      calc (ks.map fun k => pyGet (p :: w') k 0).sum
        _ ≤ _ := step1
        _ = _ := step2
        _ ≤ (w'.map Prod.snd).sum + p.2 := add_le_add step4 step3
        _ = ((p :: w').map Prod.snd).sum := by
              simp only [List.map_cons, List.sum_cons]
              ring

theorem base_default_shape (ds : List (String × ℚ)) :
    calculate_base_dqs ds none = Except.ok (round2
      ((pyGet ds "accuracy" 0 + pyGet ds "completeness" 0 + pyGet ds "consistency" 0 +
        pyGet ds "timeliness" 0 + pyGet ds "uniqueness" 0 + pyGet ds "validity" 0 +
        pyGet ds "integrity" 0) * (1/7))) := by
  simp only [calculate_base_dqs, weightedSum, required_dimensions, List.map, pyGet,
    List.sum_cons, List.sum_nil]
  simp +decide
  congr 1
  ring

theorem base_custom_shape (ds w : List (String × ℚ))
    (h : ¬ |(w.map Prod.snd).sum - 1| > 1/1000) :
    calculate_base_dqs ds (some w) = Except.ok (round2
      ((required_dimensions.map (fun d => pyGet ds d 0 * pyGet w d 0)).sum)) := by
  simp only [calculate_base_dqs, weightedSum, required_dimensions, List.map, pyGet,
    List.sum_cons, List.sum_nil, h, if_neg, ite_false]
  simp +decide

theorem base_reject_shape (ds w : List (String × ℚ))
    (h : |(w.map Prod.snd).sum - 1| > 1/1000) :
    calculate_base_dqs ds (some w) = Except.error
      ("Weights must sum to 1.0. Current sum: " ++ pyStr ((w.map Prod.snd).sum)) := by
  simp only [calculate_base_dqs, h, if_pos, ite_true]

/-! ## Claim theorems -/

/-- C1 counterexample: the dimension scores `cexScores` all lie in [0, 100]
and the weight mapping `cexWeights` sums to exactly 1.0, so
`calculate_base_dqs` accepts it — yet the returned base score is 200,
outside [0, 100]: the claim fails for accepted weight mappings that carry a
negative weight. -/
theorem C1_base_score_counterexample :
    (cexScores.all fun p => decide (0 ≤ p.2) && decide (p.2 ≤ 100)) = true ∧
    ((cexWeights.map Prod.snd).sum = 1) ∧
    calculate_base_dqs cexScores (some cexWeights) = Except.ok 200 ∧
    ¬ ((200 : ℚ) ≤ 100) := by
  refine ⟨by decide, by decide, ?_, by norm_num⟩
  decide

/-- C1, amended: every dimension score of `calculate_all_dimensions` lies in
[0, 100] for metadata satisfying the data-model invariants; the base score
with the default equal weights lies in [0, 100] whenever the dimension
scores do; and with an explicit accepted weight mapping whose values are
non-negative and sum to at most 1, the base score also lies in [0, 100]. -/
theorem C1_amended_scores_in_range :
    (∀ md now, ValidMeta md →
      ∀ p ∈ calculate_all_dimensions md now, 0 ≤ p.2 ∧ p.2 ≤ 100)
    ∧ (∀ ds, ScoresInRange ds →
        ∃ b, calculate_base_dqs ds none = Except.ok b ∧ 0 ≤ b ∧ b ≤ 100)
    ∧ (∀ ds w, ScoresInRange ds → (∀ p ∈ w, 0 ≤ p.2) →
        (w.map Prod.snd).sum ≤ 1 → |(w.map Prod.snd).sum - 1| ≤ 1/1000 →
        ∃ b, calculate_base_dqs ds (some w) = Except.ok b ∧ 0 ≤ b ∧ b ≤ 100) := by
  refine ⟨?_, ?_, ?_⟩
  · intro md now _ p hp
    simp only [calculate_all_dimensions, List.mem_cons, List.not_mem_nil,
      or_false] at hp
    rcases hp with rfl | rfl | rfl | rfl | rfl | rfl | rfl
    · exact score_accuracy_range md
    · exact score_completeness_range md
    · exact score_consistency_range md
    · exact score_timeliness_range md now
    · exact score_uniqueness_range md
    · exact score_validity_range md
    · exact score_integrity_range md
  · intro ds h
    refine ⟨_, base_default_shape ds, ?_⟩
    have h1 := pyGet_range ds "accuracy" h
    have h2 := pyGet_range ds "completeness" h
    have h3 := pyGet_range ds "consistency" h
    have h4 := pyGet_range ds "timeliness" h
    have h5 := pyGet_range ds "uniqueness" h
    have h6 := pyGet_range ds "validity" h
    have h7 := pyGet_range ds "integrity" h
    apply round2_range
    · nlinarith [h1.1, h2.1, h3.1, h4.1, h5.1, h6.1, h7.1]
    · nlinarith [h1.2, h2.2, h3.2, h4.2, h5.2, h6.2, h7.2]
  · intro ds w hds hw hsum htol
    refine ⟨_, base_custom_shape ds w (not_lt.mpr htol), ?_⟩
    have hsum_eq : (required_dimensions.map (fun d => pyGet ds d 0 * pyGet w d 0)).sum =
        pyGet ds "accuracy" 0 * pyGet w "accuracy" 0 +
        pyGet ds "completeness" 0 * pyGet w "completeness" 0 +
        pyGet ds "consistency" 0 * pyGet w "consistency" 0 +
        pyGet ds "timeliness" 0 * pyGet w "timeliness" 0 +
        pyGet ds "uniqueness" 0 * pyGet w "uniqueness" 0 +
        pyGet ds "validity" 0 * pyGet w "validity" 0 +
        pyGet ds "integrity" 0 * pyGet w "integrity" 0 := by
      simp [required_dimensions]
      ring
    have hkey := pyGet_sum_le required_dimensions (by decide) w hw
    rw [show (required_dimensions.map fun k => pyGet w k 0).sum =
        pyGet w "accuracy" 0 + pyGet w "completeness" 0 + pyGet w "consistency" 0 +
        pyGet w "timeliness" 0 + pyGet w "uniqueness" 0 + pyGet w "validity" 0 +
        pyGet w "integrity" 0 by simp [required_dimensions]; ring] at hkey
    have hs1 := pyGet_range ds "accuracy" hds
    have hs2 := pyGet_range ds "completeness" hds
    have hs3 := pyGet_range ds "consistency" hds
    have hs4 := pyGet_range ds "timeliness" hds
    have hs5 := pyGet_range ds "uniqueness" hds
    have hs6 := pyGet_range ds "validity" hds
    have hs7 := pyGet_range ds "integrity" hds
    have hw1 := pyGet_nonneg w "accuracy" hw
    have hw2 := pyGet_nonneg w "completeness" hw
    have hw3 := pyGet_nonneg w "consistency" hw
    have hw4 := pyGet_nonneg w "timeliness" hw
    have hw5 := pyGet_nonneg w "uniqueness" hw
    have hw6 := pyGet_nonneg w "validity" hw
    have hw7 := pyGet_nonneg w "integrity" hw
    rw [hsum_eq]
    apply round2_range
    · have n1 := mul_nonneg hs1.1 hw1
      have n2 := mul_nonneg hs2.1 hw2
      have n3 := mul_nonneg hs3.1 hw3
      have n4 := mul_nonneg hs4.1 hw4
      have n5 := mul_nonneg hs5.1 hw5
      have n6 := mul_nonneg hs6.1 hw6
      have n7 := mul_nonneg hs7.1 hw7
      linarith
    · have t1 : pyGet ds "accuracy" 0 * pyGet w "accuracy" 0 ≤
          100 * pyGet w "accuracy" 0 := mul_le_mul_of_nonneg_right hs1.2 hw1
      have t2 : pyGet ds "completeness" 0 * pyGet w "completeness" 0 ≤
          100 * pyGet w "completeness" 0 := mul_le_mul_of_nonneg_right hs2.2 hw2
      have t3 : pyGet ds "consistency" 0 * pyGet w "consistency" 0 ≤
          100 * pyGet w "consistency" 0 := mul_le_mul_of_nonneg_right hs3.2 hw3
      have t4 : pyGet ds "timeliness" 0 * pyGet w "timeliness" 0 ≤
          100 * pyGet w "timeliness" 0 := mul_le_mul_of_nonneg_right hs4.2 hw4
      have t5 : pyGet ds "uniqueness" 0 * pyGet w "uniqueness" 0 ≤
          100 * pyGet w "uniqueness" 0 := mul_le_mul_of_nonneg_right hs5.2 hw5
      have t6 : pyGet ds "validity" 0 * pyGet w "validity" 0 ≤
          100 * pyGet w "validity" 0 := mul_le_mul_of_nonneg_right hs6.2 hw6
      have t7 : pyGet ds "integrity" 0 * pyGet w "integrity" 0 ≤
          100 * pyGet w "integrity" 0 := mul_le_mul_of_nonneg_right hs7.2 hw7
      linarith

/-- C1 witness: the amended theorem instantiated at the mock metadata of the
src/dimensions.py test stub and at the in-range score set `cexScores`. -/
theorem C1_amended_scores_in_range_witness :
    ValidMeta mockMeta ∧
    (∀ p ∈ calculate_all_dimensions mockMeta 0, 0 ≤ p.2 ∧ p.2 ≤ 100) ∧
    ScoresInRange cexScores ∧
    (∃ b, calculate_base_dqs cexScores none = Except.ok b ∧ 0 ≤ b ∧ b ≤ 100) :=
  ⟨by unfold ValidMeta; exact ⟨by decide, by decide⟩,
    C1_amended_scores_in_range.1 mockMeta 0 (by unfold ValidMeta; exact ⟨by decide, by decide⟩),
    by unfold ScoresInRange; decide,
    C1_amended_scores_in_range.2.1 cexScores (by unfold ScoresInRange; decide)⟩

/-- C2: an explicit weight mapping is rejected with the weight-sum
`ValueError` exactly when its value sum differs from 1.0 by more than 0.001
(the check runs before any aggregation); omitted weights never raise; and an
accepted mapping aggregates with dimensions missing from the mapping
contributing weight 0 (the `pyGet w d 0` lookup). -/
theorem C2_weight_validation (ds w : List (String × ℚ)) :
    (calculate_base_dqs ds (some w) = Except.error
        ("Weights must sum to 1.0. Current sum: " ++ pyStr ((w.map Prod.snd).sum))
      ↔ |(w.map Prod.snd).sum - 1| > 1/1000)
    ∧ (∃ q, calculate_base_dqs ds none = Except.ok q)
    ∧ (|(w.map Prod.snd).sum - 1| ≤ 1/1000 →
        calculate_base_dqs ds (some w) = Except.ok (round2
          ((required_dimensions.map (fun d => pyGet ds d 0 * pyGet w d 0)).sum))) := by
  refine ⟨⟨?_, fun h => base_reject_shape ds w h⟩, ⟨_, base_default_shape ds⟩,
    fun h => base_custom_shape ds w (not_lt.mpr h)⟩
  intro he
  by_contra hns
  rw [base_custom_shape ds w hns] at he
  exact Except.noConfusion he

/-- C2 witness: the sample scores and the payment-profile custom weights of
the src/scoring.py test stub; their sum is exactly 1.0, inside tolerance. -/
theorem C2_weight_validation_witness :
    |((customWeights.map Prod.snd).sum - 1)| ≤ 1/1000 ∧
    calculate_base_dqs sampleScores (some customWeights) = Except.ok (round2
      ((required_dimensions.map
        (fun d => pyGet sampleScores d 0 * pyGet customWeights d 0)).sum)) :=
  ⟨by decide, (C2_weight_validation sampleScores customWeights).2.2 (by decide)⟩

theorem any_of_perm {l₁ l₂ : List String} (f : String → Bool)
    (h : l₁.Perm l₂) : l₁.any f = l₂.any f := by
  rw [Bool.eq_iff_iff]
  simp only [List.any_eq_true]
  constructor
  · rintro ⟨x, hx, hfx⟩
    exact ⟨x, h.mem_iff.mp hx, hfx⟩
  · rintro ⟨x, hx, hfx⟩
    exact ⟨x, h.mem_iff.mpr hx, hfx⟩

/-- C3: with a metadata object carrying signals, a profile whose required
signals are not all present and true yields the not-applicable result
`(None, False)` for every base score, dimension-score mapping and alpha;
`is_role_applicable` is true exactly when every required signal reads true
(absent signals read false); an empty requirement list is always
applicable. -/
theorem C3_applicability_gating (p : RoleProfile) (sg : List (String × Bool))
    (base : ℚ) (ds : List (String × ℚ)) (alpha : ℚ) :
    (is_role_applicable p sg = false →
      calculate_role_score base ds p (MetadataArg.withSignals sg) alpha = (none, false))
    ∧ (is_role_applicable p sg = true ↔
        ∀ s ∈ p.required_signals, pyGet sg s false = true)
    ∧ (p.required_signals = [] → is_role_applicable p sg = true) := by
  refine ⟨?_, ?_, ?_⟩
  · intro h
    simp [calculate_role_score, h]
  · simp [is_role_applicable, List.all_eq_true]
  · intro h
    simp [is_role_applicable, h]

/-- C3 witness: the Fraud Analyst profile against signals lacking
`has_transaction_id`. -/
theorem C3_applicability_gating_witness :
    is_role_applicable fraudProfile noTxSignals = false ∧
    calculate_role_score 90 sampleScores fraudProfile
      (MetadataArg.withSignals noTxSignals) (3/5) = (none, false) :=
  ⟨by decide,
    (C3_applicability_gating fraudProfile noTxSignals 90 sampleScores (3/5)).1
      (by decide)⟩

/-- C4: when the metadata argument is omitted/None or lacks a signals
attribute, the applicability guard of `calculate_role_score` and
`explain_role_impact` is skipped: a numeric score and the full explanation
are produced for every profile, even one whose required signals a dataset
would not satisfy. -/
theorem C4_metadata_guard_skip (p : RoleProfile) (base : ℚ)
    (ds : List (String × ℚ)) (alpha : ℚ) (m : MetadataArg)
    (h : m = MetadataArg.absent ∨ m = MetadataArg.noSignalsAttr) :
    (∃ q, (calculate_role_score base ds p m alpha).1 = some q)
    ∧ explain_role_impact p ds m = explain_body p ds := by
  rcases h with rfl | rfl <;> exact ⟨⟨_, rfl⟩, rfl⟩

/-- C4 witness: the Fraud Analyst profile scored with the metadata argument
omitted — a numeric score and a full explanation despite its required
signal. -/
theorem C4_metadata_guard_skip_witness :
    (∃ q, (calculate_role_score 90 sampleScores fraudProfile
      MetadataArg.absent (3/5)).1 = some q)
    ∧ explain_role_impact fraudProfile sampleScores MetadataArg.absent =
        explain_body fraudProfile sampleScores :=
  C4_metadata_guard_skip fraudProfile 90 sampleScores (3/5) MetadataArg.absent
    (Or.inl rfl)

/-- C5: for an applicable profile the returned risk flag is true exactly
when some critical dimension scores strictly below the threshold (missing
dimensions read as 0); the flag is invariant under permutation of the
critical-dimension list; an empty critical-dimension list never flags. -/
theorem C5_risk_detection (p : RoleProfile) (sg : List (String × Bool))
    (base : ℚ) (ds : List (String × ℚ)) (alpha : ℚ)
    (happ : is_role_applicable p sg = true) :
    ((calculate_role_score base ds p (MetadataArg.withSignals sg) alpha).2 = true ↔
      ∃ d ∈ p.critical_dimensions, pyGet ds d 0 < p.risk_threshold)
    ∧ (∀ l, l.Perm p.critical_dimensions →
        (calculate_role_score base ds (withCritical p l)
          (MetadataArg.withSignals sg) alpha).2 =
        (calculate_role_score base ds p (MetadataArg.withSignals sg) alpha).2)
    ∧ (p.critical_dimensions = [] →
        (calculate_role_score base ds p (MetadataArg.withSignals sg) alpha).2 = false) := by
  have hsnd : (calculate_role_score base ds p (MetadataArg.withSignals sg) alpha).2 =
      risk_check ds p := by
    simp [calculate_role_score, happ, role_score_body]
  have hsnd' : ∀ l, (calculate_role_score base ds (withCritical p l)
      (MetadataArg.withSignals sg) alpha).2 = risk_check ds (withCritical p l) := by
    intro l
    have happ' : is_role_applicable (withCritical p l) sg = true := happ
    simp [calculate_role_score, happ', role_score_body]
  refine ⟨?_, ?_, ?_⟩
  · rw [hsnd]
    simp [risk_check, List.any_eq_true]
  · intro l hperm
    rw [hsnd, hsnd' l]
    exact any_of_perm _ hperm
  · intro h
    rw [hsnd]
    simp [risk_check, h]

/-- C5 witness: the Fraud Analyst profile, applicable via `txSignals`,
evaluated on the sample scores (uniqueness 85 and timeliness 90, both at or
above the threshold 75 — no risk). -/
theorem C5_risk_detection_witness :
    is_role_applicable fraudProfile txSignals = true ∧
    ((calculate_role_score 90 sampleScores fraudProfile
        (MetadataArg.withSignals txSignals) (3/5)).2 = true ↔
      ∃ d ∈ fraudProfile.critical_dimensions,
        pyGet sampleScores d 0 < fraudProfile.risk_threshold) :=
  ⟨by decide,
    (C5_risk_detection fraudProfile txSignals 90 sampleScores (3/5) (by decide)).1⟩

/-- C6: any requested alpha below 0.6 makes `calculate_role_score` behave
exactly as if alpha were 0.6; for alpha at or above 0.6 the requested alpha
is used unchanged in the blend `round(alpha*base + (1-alpha)*roleComponent, 2)`. -/
theorem C6_alpha_floor (base : ℚ) (ds : List (String × ℚ)) (p : RoleProfile)
    (m : MetadataArg) (alpha : ℚ) :
    (alpha < 3/5 →
      calculate_role_score base ds p m alpha =
        calculate_role_score base ds p m (3/5))
    ∧ (3/5 ≤ alpha →
      calculate_role_score base ds p MetadataArg.absent alpha =
        (some (round2 (alpha * base + (1 - alpha) * role_component ds p.weights)),
         risk_check ds p)) := by
  have hbody : alpha < 3/5 →
      role_score_body base ds p alpha = role_score_body base ds p (3/5) := by
    intro h
    simp [role_score_body, h, lt_irrefl]
  refine ⟨?_, ?_⟩
  · intro h
    cases m <;> simp [calculate_role_score, hbody h]
  · intro h
    simp [calculate_role_score, role_score_body, not_lt.mpr h]

/-- C6 witness: a requested alpha of 1/3 acts as 0.6, and a requested alpha
of 4/5 is used unchanged, on the Fraud Analyst profile with the sample
scores. -/
theorem C6_alpha_floor_witness :
    ((1:ℚ)/3 < 3/5 ∧
      calculate_role_score 90 sampleScores fraudProfile MetadataArg.absent (1/3) =
        calculate_role_score 90 sampleScores fraudProfile MetadataArg.absent (3/5))
    ∧ ((3:ℚ)/5 ≤ 4/5 ∧
      calculate_role_score 90 sampleScores fraudProfile MetadataArg.absent (4/5) =
        (some (round2 ((4/5) * 90 +
          (1 - 4/5) * role_component sampleScores fraudProfile.weights)),
         risk_check sampleScores fraudProfile)) :=
  ⟨⟨by norm_num,
    (C6_alpha_floor 90 sampleScores fraudProfile MetadataArg.absent (1/3)).1
      (by norm_num)⟩,
   ⟨by norm_num,
    (C6_alpha_floor 90 sampleScores fraudProfile MetadataArg.absent (4/5)).2
      (by norm_num)⟩⟩

/-- C7 counterexample: the same one-column table, run through the pipeline
at two different clock instants (0 and three days later), yields different
dimension scores (timeliness drops from 100 to 90) and hence a different
base score: `score_timeliness` reads the clock, so repeated calls made at
different instants need not agree. -/
theorem C7_determinism_counterexample :
    run_pipeline exDF 0 ≠ run_pipeline exDF 259200 := by
  set_option maxRecDepth 8000 in decide

/-- C7, amended: the pipeline is a pure function of the table and the
evaluation instant. Extraction and the audit hash depend on the table alone
(identical tables give identical metadata and hashes at any pair of
instants), and all outputs — metadata, audit hash, the seven dimension
scores and the base score — coincide across repeated calls made at the same
instant; only `score_timeliness` (and through it the base score) varies with
the clock. -/
theorem C7_amended_determinism (df : DataFrame) (now₁ now₂ : Int) :
    (run_pipeline df now₁).metadata = (run_pipeline df now₂).metadata
    ∧ (run_pipeline df now₁).metadata.audit_hash =
        (run_pipeline df now₂).metadata.audit_hash
    ∧ (now₁ = now₂ → run_pipeline df now₁ = run_pipeline df now₂) :=
  ⟨rfl, rfl, fun h => by rw [h]⟩

/-- C7 witness: the amended determinism theorem at the concrete table and
instants of the counterexample. -/
theorem C7_amended_determinism_witness :
    (run_pipeline exDF 0).metadata = (run_pipeline exDF 259200).metadata ∧
    run_pipeline exDF 259200 = run_pipeline exDF 259200 :=
  ⟨(C7_amended_determinism exDF 0 259200).1,
   (C7_amended_determinism exDF 259200 259200).2.2 rfl⟩

/-- C8 counterexample: `extract_metadata` applied directly to an empty table
(one column, zero rows) raises nothing — it returns a complete
`DatasetMetadata` record with `row_count` 0, refuting the claim that
extraction fails on every empty table. The emptiness check lives in
`load_dataset`, not in `extract_metadata`. -/
theorem C8_extract_counterexample :
    dfLen emptyDF = 0 ∧
    (extract_metadata emptyDF).row_count = 0 ∧
    (extract_metadata emptyDF).column_names = ["col_a"] ∧
    (extract_metadata emptyDF).null_counts = [("col_a", 0)] ∧
    (extract_metadata emptyDF).semantic_hints = [("col_a", "UNKNOWN")] := by
  refine ⟨rfl, rfl, ?_, ?_, ?_⟩ <;> set_option maxRecDepth 8000 in decide

/-- C8, amended: empty tables are rejected at load time. `load_dataset`
raises the `ValueError` "Dataset is empty." for any `.csv`-named source
whose parsed table has zero rows, so the load-then-extract pipeline never
yields a `DatasetMetadata` for an empty table; `extract_metadata` alone,
handed an already-materialized empty table, returns a record instead of
raising. -/
theorem C8_amended_empty_rejected_at_load (src : Source) (df : DataFrame)
    (hp : src.parsed = some df) (hlen : dfLen df = 0) :
    exceptIsOk (ingest_pipeline src) = false ∧
    (endsWithStr src.name ".csv" = true →
      load_dataset src = Except.error "Dataset is empty.") := by
  have hemp : dfEmpty df = true := by simp [dfEmpty, hlen]
  by_cases hcsv : endsWithStr src.name ".csv" = true
  · have hld : load_dataset src = Except.error "Dataset is empty." := by
      simp [load_dataset, hcsv, hp, hemp]
    exact ⟨by simp [ingest_pipeline, hld, Except.map, exceptIsOk], fun _ => hld⟩
  · have hld : load_dataset src =
        Except.error "Only CSV format is supported in this version." := by
      simp [load_dataset, hcsv, hp]
    exact ⟨by simp [ingest_pipeline, hld, Except.map, exceptIsOk],
      fun hc => absurd hc hcsv⟩

/-- C8 witness: the amended theorem at a `.csv`-named source parsing to the
empty table. -/
theorem C8_amended_empty_rejected_at_load_witness :
    emptySource.parsed = some emptyDF ∧ dfLen emptyDF = 0 ∧
    exceptIsOk (ingest_pipeline emptySource) = false ∧
    load_dataset emptySource = Except.error "Dataset is empty." :=
  ⟨rfl, rfl, (C8_amended_empty_rejected_at_load emptySource emptyDF rfl rfl).1,
   (C8_amended_empty_rejected_at_load emptySource emptyDF rfl rfl).2 (by decide)⟩

theorem daysBetween_neg_iff (now t : Int) : daysBetween now t < 0 ↔ now < t := by
  unfold daysBetween
  constructor
  · intro h
    by_contra hge
    push_neg at hge
    have hq : (0:ℚ) ≤ ((now - t : ℤ) : ℚ) / 86400 := by
      apply div_nonneg _ (by norm_num)
      have hz : (0:ℤ) ≤ now - t := by omega
      exact_mod_cast hz
    have := Int.floor_nonneg.mpr hq
    omega
  · intro h
    have hx : ((now - t : ℤ) : ℚ) / 86400 < 0 := by
      apply div_neg_of_neg_of_pos _ (by norm_num)
      have hz : ((now - t : ℤ) : ℚ) < 0 := by exact_mod_cast (by omega : (now - t : ℤ) < 0)
      exact hz
    have hf : (⌊((now - t : ℤ) : ℚ) / 86400⌋ : ℚ) ≤ ((now - t : ℤ) : ℚ) / 86400 :=
      Int.floor_le _
    have hlt : (⌊((now - t : ℤ) : ℚ) / 86400⌋ : ℚ) < 0 := lt_of_le_of_lt hf hx
    exact_mod_cast hlt

theorem recencyScore_daysBetween (now t : Int) :
    recencyScore (daysBetween now t) = recencyScoreSpec now t := by
  unfold recencyScore recencyScoreSpec
  by_cases h : now < t
  · rw [if_pos ((daysBetween_neg_iff now t).mpr h), if_pos h]
  · rw [if_neg (fun hc => h ((daysBetween_neg_iff now t).mp hc)), if_neg h]

/-- C9: `score_timeliness` computes exactly the banded-recency rule the
specification states — per timestamp-metric column the banded score of its
max observed instant against now (future → 0; at most 1 day old → 100; at
most 30 days → 90; at most 365 days → 70; older → 40, ages in whole days as
`timedelta.days` reports them), averaged across those columns; with no such
column it returns 50 when a TIMESTAMP hint exists and 100 otherwise. -/
theorem C9_timeliness_spec_equiv (md : DatasetMetadata) (now : Int) :
    score_timeliness md now = score_timeliness_spec md now := by
  by_cases hts : md.timestamp_metrics = []
  · simp [score_timeliness, score_timeliness_spec, hts]
  · have hfe : (fun (p : String × TimestampMetrics) =>
        recencyScore (daysBetween now p.2.max_time)) =
        (fun (p : String × TimestampMetrics) =>
          recencyScoreSpec now p.2.max_time) :=
      funext (fun p => recencyScore_daysBetween now p.2.max_time)
    simp only [score_timeliness, score_timeliness_spec, hts, if_false,
      List.length_map, hfe]

theorem listSum_map_one {σ : Type} (l : List σ) :
    (l.map fun _ => (1 : ℚ)).sum = (l.length : ℚ) := by
  induction l with
  | nil => simp
  | cons hd tl ih =>
      simp [ih]
      ring

theorem score_validity_no_stats (md : DatasetMetadata)
    (h : ∀ c ∈ hintedCols md "MONEY", pyLookup md.numeric_stats c = none) :
    score_validity md = 100 := by
  simp only [score_validity]
  by_cases hmc : hintedCols md "MONEY" = []
  · simp [hmc]
  · have hmap : (hintedCols md "MONEY").map
        (fun col => if 0 ≤ moneyMin md col then (1:ℚ) else 1/2) =
        (hintedCols md "MONEY").map (fun _ => (1:ℚ)) := by
      apply List.map_congr_left
      intro c hc
      have : moneyMin md c = 0 := by simp [moneyMin, h c hc]
      rw [if_pos (by rw [this])]
    have hlen : ((hintedCols md "MONEY").length : ℚ) ≠ 0 := by
      have : 0 < (hintedCols md "MONEY").length := List.length_pos.mpr hmc
      positivity
    simp only [hmc, if_false, hmap, listSum_map_one]
    rw [div_self hlen]
    norm_num

theorem extract_numeric_stats_none (df : DataFrame) (c : Column)
    (hc : c ∈ df.cols) (hnd : (df.cols.map Column.name).Nodup)
    (hnum : isNumericDtype c.dtype = false) :
    pyLookup (extract_metadata df).numeric_stats c.name = none := by
  rw [pyLookup_eq_none_iff]
  intro p hp
  simp only [extract_metadata] at hp
  obtain ⟨c', hc', heq⟩ := List.mem_filterMap.mp hp
  by_cases hn : isNumericDtype c'.dtype
  · rw [if_pos hn] at heq
    intro hname
    have hpc : p.1 = c'.name := by rw [← Option.some_inj.mp heq]
    have : c' = c := List.inj_on_of_nodup_map hnd hc' hc (by rw [← hpc, hname])
    rw [this] at hn
    simp [hnum] at hn
  · rw [if_neg hn] at heq
    exact Option.noConfusion heq

theorem hintedCols_extract (df : DataFrame) (c : String)
    (hc : c ∈ hintedCols (extract_metadata df) "MONEY") :
    ∃ col ∈ df.cols, col.name = c ∧ columnHint col = "MONEY" := by
  simp only [hintedCols, extract_metadata] at hc
  obtain ⟨p, hpmem, hp1⟩ := List.mem_map.mp hc
  have hpf := List.mem_filter.mp hpmem
  obtain ⟨col, hcol, hpe⟩ := List.mem_map.mp hpf.1
  refine ⟨col, hcol, ?_, ?_⟩
  · rw [← hp1, ← hpe]
  · have : p.2 = "MONEY" := by
      have := hpf.2
      simpa using this
    rw [← hpe] at this
    exact this

/-- C10: a MONEY-hinted column without a `numeric_stats` entry reads its
observed minimum as 0 via `dict.get` chaining and earns full validity
credit; extraction records no `numeric_stats` entry for any non-numeric
column; hence a dataset all of whose MONEY-hinted columns are non-numeric
scores validity 100.0, while `score_accuracy` is where the type mismatch
registers (such a column fails its accuracy check). -/
theorem C10_money_without_stats :
    (∀ md, (∀ c ∈ hintedCols md "MONEY", pyLookup md.numeric_stats c = none) →
        score_validity md = 100)
    ∧ (∀ (df : DataFrame) (c : Column), c ∈ df.cols →
        (df.cols.map Column.name).Nodup → isNumericDtype c.dtype = false →
        pyLookup (extract_metadata df).numeric_stats c.name = none)
    ∧ (∀ md col, pyGet md.semantic_hints col "UNKNOWN" = "MONEY" →
        pyContains (lowerStr (pyGet md.data_types col "")) "int" = false →
        pyContains (lowerStr (pyGet md.data_types col "")) "float" = false →
        columnIsAccurate md col = false)
    ∧ (∀ (df : DataFrame), (df.cols.map Column.name).Nodup →
        (∀ c ∈ df.cols, columnHint c = "MONEY" → isNumericDtype c.dtype = false) →
        score_validity (extract_metadata df) = 100) := by
  refine ⟨score_validity_no_stats, extract_numeric_stats_none, ?_, ?_⟩
  · intro md col h1 h2 h3
    simp [columnIsAccurate, h1, h2, h3]
  · intro df hnd hmoney
    apply score_validity_no_stats
    intro c hc
    obtain ⟨col, hcol, hname, hhint⟩ := hintedCols_extract df c hc
    rw [← hname]
    exact extract_numeric_stats_none df col hcol hnd (hmoney col hcol hhint)

/-- C10 witness: a table whose single column "amount" is MONEY-hinted with
dtype "object": validity is 100 despite the type mismatch. -/
theorem C10_money_without_stats_witness :
    (moneyTextDF.cols.map Column.name).Nodup ∧
    score_validity (extract_metadata moneyTextDF) = 100 :=
  ⟨by decide, C10_money_without_stats.2.2.2 moneyTextDF (by decide) (by decide)⟩

end DataLens
